import Mathlib

/-!
Verification development for the `epa_pi_stream` repository.

The embedding below translates `src/table_network.py` (network record
validation and network-model assembly) into Lean. Tabular data is modelled
as lists of records; pandas DataFrames carrying node, pipe and demand rows
become `List NodeRow`, `List PipeRow` and `List DemandRow`.

Identifier cells of the node and pipe tables are modelled as `String`
(the source's `dropna()` on those columns is the identity for string
cells); the demand table's `node_id` column is modelled as
`Option String`, with `none` standing for a missing (NaN/empty) cell,
because that is the one column where the source distinguishes missing
values (`dropna()` in `validate_network`, `pd.notna` in `create_network`).
Numeric cells are modelled as `Rat`; no validation or assembly logic
inspects their values.
-/

namespace EpaPiStream

/-- A row of the node table: columns `type`, `id`, `x`, `y`, `elevation`
(the schema produced by `parse_inp_file` and expected by
`validate_network` / `create_network`). -/
structure NodeRow where
  type : String
  id : String
  x : Rat
  y : Rat
  elevation : Rat
deriving DecidableEq, Repr

/-- A row of the pipe table: columns `id`, `from`, `to`, `length`,
`diameter`, `roughness`. The `from` / `to` columns are named `from_id` /
`to_id` here because `from` is a Lean keyword. -/
structure PipeRow where
  id : String
  from_id : String
  to_id : String
  length : Rat
  diameter : Rat
  roughness : Rat
deriving DecidableEq, Repr

/-- A row of the demand table: columns `node_id`, `demand (m3/s)`.
`node_id` is `none` when the cell is missing (NaN). -/
structure DemandRow where
  node_id : Option String
  demand : Rat
deriving DecidableEq, Repr

/-- `pandas.Series.duplicated()` restricted to the marked values: the
entries of `l` that are equal to some earlier entry, in order (an entry
occurring `k` times contributes `k - 1` marks). `seen` accumulates the
values already passed. -/
def dupAux (seen : List String) : List String → List String
  | [] => []
  | x :: xs => if x ∈ seen then x :: dupAux seen xs else dupAux (x :: seen) xs

/-- The values `nodes_df['id'][nodes_df['id'].duplicated()]` of the source:
every occurrence after the first of each value. -/
def pandasDuplicated (l : List String) : List String :=
  dupAux [] l

/-- `pandas.Series.unique()`: deduplication keeping the first occurrence
of each value, in order. -/
def uniqAux (seen : List String) : List String → List String
  | [] => []
  | x :: xs => if x ∈ seen then uniqAux seen xs else x :: uniqAux (x :: seen) xs

/-- `Series.unique()` of a list of values. -/
def pandasUnique (l : List String) : List String :=
  uniqAux [] l

/-- `nodes_df[nodes_df['id'] == n]['type'].values[0]` of the source: the
`type` of the FIRST node row whose id equals `n`. The source raises on an
id absent from the table; that case is unreachable in `validate_network`
(the id is drawn from the table) and is mapped to `""` here. -/
def firstTypeOf (nodes : List NodeRow) (n : String) : String :=
  match nodes.find? (fun r => r.id == n) with
  | some r => r.type
  | none => ""

/-- `set(pipes_df['from']).union(set(pipes_df['to']))` of the source, as a
list whose membership is that union: the node ids touched by at least one
pipe as an endpoint. -/
def connectedIds (pipes : List PipeRow) : List String :=
  pipes.map (·.from_id) ++ pipes.map (·.to_id)

/-- The `isolated` list of `validate_network`: ids of the node table not
touched by any pipe whose first matching row is not a tank. -/
def isolatedNodes (nodes : List NodeRow) (pipes : List PipeRow) : List String :=
  (nodes.map (·.id)).filter
    (fun n => decide (n ∉ connectedIds pipes ∧ firstTypeOf nodes n ≠ "tank"))

/-- The duplicate-node-ids error block of `validate_network` (0 or 1
error string). -/
def dupNodeErrors (nodes : List NodeRow) : List String :=
  let dups := pandasDuplicated (nodes.map (·.id))
  if dups.isEmpty then []
  else ["Duplicate node IDs: " ++ String.intercalate ", " (pandasUnique dups)]

/-- The duplicate-pipe-ids error block of `validate_network`. -/
def dupPipeErrors (pipes : List PipeRow) : List String :=
  let dups := pandasDuplicated (pipes.map (·.id))
  if dups.isEmpty then []
  else ["Duplicate pipe IDs: " ++ String.intercalate ", " (pandasUnique dups)]

/-- The per-pipe referential-integrity error block of `validate_network`:
for each pipe row, an error for a `from` endpoint absent from the node id
list, then an error for an absent `to` endpoint. -/
def pipeRefErrors (node_ids : List String) (pipes : List PipeRow) : List String :=
  pipes.flatMap (fun p =>
    (if p.from_id ∈ node_ids then []
     else ["Pipe " ++ p.id ++ " connects from unknown node '" ++ p.from_id ++ "'"]) ++
    (if p.to_id ∈ node_ids then []
     else ["Pipe " ++ p.id ++ " connects to unknown node '" ++ p.to_id ++ "'"]))

/-- The per-demand referential-integrity error block of `validate_network`:
the source iterates `demands_df['node_id'].dropna()`, here the
`filterMap` of the `node_id` column. -/
def demandRefErrors (node_ids : List String) (demand_ids : List String) : List String :=
  demand_ids.flatMap (fun n =>
    if n ∈ node_ids then []
    else ["Demand specified at non-existent node '" ++ n ++ "'"])

/-- The isolated-nodes error block of `validate_network`. -/
def isolatedErrors (nodes : List NodeRow) (pipes : List PipeRow) : List String :=
  if (isolatedNodes nodes pipes).isEmpty then []
  else ["Isolated nodes with no connected pipes: " ++
        String.intercalate ", " (isolatedNodes nodes pipes)]

/-- The suggestions appended alongside `pipeRefErrors`. -/
def pipeRefSuggestions (node_ids : List String) (pipes : List PipeRow) : List String :=
  pipes.flatMap (fun p =>
    (if p.from_id ∈ node_ids then []
     else ["Add node '" ++ p.from_id ++ "' to node table."]) ++
    (if p.to_id ∈ node_ids then []
     else ["Add node '" ++ p.to_id ++ "' to node table."]))

/-- The suggestions appended alongside `demandRefErrors`. -/
def demandRefSuggestions (node_ids : List String) (demand_ids : List String) : List String :=
  demand_ids.flatMap (fun n =>
    if n ∈ node_ids then []
    else ["Check demand node '" ++ n ++ "' or add it to node table."])

/-- `validate_network(nodes_df, pipes_df, demands_df)` of
`src/table_network.py` lines 77-114: returns the `(errors, suggestions)`
pair, each list the concatenation of the five check blocks in source
order (duplicate node ids, duplicate pipe ids, pipe references, demand
references, isolated nodes). The source appends to the two Python lists
in lockstep, so the per-block concatenation order is the source's append
order. -/
def validate_network (nodes : List NodeRow) (pipes : List PipeRow)
    (demands : List DemandRow) : List String × List String :=
  let node_ids := nodes.map (·.id)
  let demand_ids := demands.filterMap (·.node_id)
  (dupNodeErrors nodes ++ dupPipeErrors pipes ++
     pipeRefErrors node_ids pipes ++ demandRefErrors node_ids demand_ids ++
     isolatedErrors nodes pipes,
   (if (pandasDuplicated (nodes.map (·.id))).isEmpty then []
    else ["Remove or rename duplicate node IDs."]) ++
   (if (pandasDuplicated (pipes.map (·.id))).isEmpty then []
    else ["Ensure each pipe ID is unique."]) ++
   pipeRefSuggestions node_ids pipes ++
   demandRefSuggestions node_ids demand_ids ++
   (if (isolatedNodes nodes pipes).isEmpty then []
    else ["Connect isolated nodes with pipes."]))

/-- The solver-native network object built by `create_network`, modelled
by the sequences of registration calls it receives: `addTank` /
`addNode` entries `(id, x, y, elevation)`, `addPipe` entries
`(id, from, to, length, diameter, roughness)`, and `addDemand` entries
`(node_id, demand, "BASE")`. -/
structure Network where
  tanks : List (String × Rat × Rat × Rat)
  junction_nodes : List (String × Rat × Rat × Rat)
  net_pipes : List (String × String × String × Rat × Rat × Rat)
  net_demands : List (String × Rat × String)
deriving DecidableEq, Repr

/-- `Network()` — the empty network object. -/
def Network.empty : Network :=
  ⟨[], [], [], []⟩

/-- `net.addTank(id, x, y, elevation)`. -/
def Network.addTank (net : Network) (id : String) (x y e : Rat) : Network :=
  { net with tanks := net.tanks ++ [(id, x, y, e)] }

/-- `net.addNode(id, x, y, elevation)`. -/
def Network.addNode (net : Network) (id : String) (x y e : Rat) : Network :=
  { net with junction_nodes := net.junction_nodes ++ [(id, x, y, e)] }

/-- `net.addPipe(id, from, to, length, diameter, roughness)`. -/
def Network.addPipe (net : Network) (id f t : String) (len dia rough : Rat) : Network :=
  { net with net_pipes := net.net_pipes ++ [(id, f, t, len, dia, rough)] }

/-- `net.addDemand(node_id, demand, 'BASE')`. -/
def Network.addDemand (net : Network) (nid : String) (d : Rat) (pat : String) : Network :=
  { net with net_demands := net.net_demands ++ [(nid, d, pat)] }

/-- `create_network(nodes_df, pipes_df, demands_df)` of
`src/table_network.py` lines 117-129: registers each node row as a tank
or a regular node, each pipe row as a pipe, and each demand row whose
`node_id` is present (`pd.notna`) as a base demand. -/
def create_network (nodes : List NodeRow) (pipes : List PipeRow)
    (demands : List DemandRow) : Network :=
  let net := nodes.foldl
    (fun net r =>
      if r.type == "tank" then net.addTank r.id r.x r.y r.elevation
      else net.addNode r.id r.x r.y r.elevation)
    Network.empty
  let net := pipes.foldl
    (fun net p => net.addPipe p.id p.from_id p.to_id p.length p.diameter p.roughness)
    net
  demands.foldl
    (fun net d =>
      match d.node_id with
      | some nid => net.addDemand nid d.demand "BASE"
      | none => net)
    net

/-- A node of the parsed EPANET network handed back by the solver library
(`sim.network.nodes` in `parse_inp_file`): its id, its declared
`node_type` string and its elevation. -/
structure INPNode where
  id : String
  node_type : String
  elevation : Rat
deriving DecidableEq, Repr

/-- A link of the parsed EPANET network (`sim.network.links`): its id,
its declared `link_type` string, its endpoint node ids and its physical
attributes. -/
structure INPLink where
  id : String
  link_type : String
  start_node : String
  end_node : String
  length : Rat
  diameter : Rat
  roughness : Rat
deriving DecidableEq, Repr

/-- A junction of the parsed EPANET network (`sim.network.junctions`):
its id and its base demand. -/
structure INPJunction where
  id : String
  base_demand : Rat
deriving DecidableEq, Repr

/-- The parsed network object `sim.network` that `parse_inp_file`
iterates over. -/
structure INPNetwork where
  nodes : List INPNode
  links : List INPLink
  junctions : List INPJunction
deriving DecidableEq, Repr

/-- The row-building part of `parse_inp_file` (`src/table_network.py`
lines 49-74): from the parsed network, build the node table (`'tank'`
when the declared type is `'Tank'`, otherwise `'node'`; coordinates 0, 0;
the node's elevation), the pipe table (only links whose declared type is
`'Pipe'`, keeping endpoints, length, diameter, roughness) and the demand
table (one row per junction carrying its base demand). -/
def parse_inp_rows (net : INPNetwork) :
    List NodeRow × List PipeRow × List DemandRow :=
  (net.nodes.map (fun n =>
     ⟨if n.node_type == "Tank" then "tank" else "node", n.id, 0, 0, n.elevation⟩),
   (net.links.filter (fun l => l.link_type == "Pipe")).map (fun l =>
     ⟨l.id, l.start_node, l.end_node, l.length, l.diameter, l.roughness⟩),
   net.junctions.map (fun j => ⟨some j.id, j.base_demand⟩))

/-- The filesystem-visible events in the life of the temporary file of
`parse_inp_file`. -/
inductive FileEvent where
  | create
  | write
  | flush
  | close
  | delete
deriving DecidableEq, Repr

/-- The exit paths of `parse_inp_file`'s `with` block: normal
completion, a failure raised by `EPANetSimulation` on the written file,
or a failure of the write itself. -/
inductive ParseOutcome where
  | ok
  | simError
  | writeError
deriving DecidableEq, Repr

/-- The `delete` flag that `parse_inp_file` passes to
`tempfile.NamedTemporaryFile` (`src/table_network.py` line 44):
`delete=False`. -/
def parse_inp_tempfile_delete_flag : Bool :=
  false

/-- What `NamedTemporaryFile.__exit__` does to the temporary file when
the `with` block is left (on any path): close it, and remove it only
when the `delete` flag was set. -/
def tempfileExitEvents (delete_flag : Bool) : List FileEvent :=
  if delete_flag then [FileEvent.close, FileEvent.delete] else [FileEvent.close]

/-- The event trace of `parse_inp_file`'s temporary file on each exit
path (`src/table_network.py` lines 44-47). The function body holds no
removal call: after the `with` block the file is only ever closed, so
every path ends with `tempfileExitEvents` of the `delete=False` flag. -/
def parse_inp_file_trace : ParseOutcome → List FileEvent
  | ParseOutcome.ok =>
      [FileEvent.create, FileEvent.write, FileEvent.flush] ++
        tempfileExitEvents parse_inp_tempfile_delete_flag
  | ParseOutcome.simError =>
      [FileEvent.create, FileEvent.write, FileEvent.flush] ++
        tempfileExitEvents parse_inp_tempfile_delete_flag
  | ParseOutcome.writeError =>
      [FileEvent.create] ++ tempfileExitEvents parse_inp_tempfile_delete_flag

/-- The spec's description of how `parse_inp_file` renders a parsed node
as a node-table row: classified `tank` exactly when the declared type is
`Tank` and `node` otherwise, coordinates at the origin, elevation
carried over. Stated from the spec's words, to be compared with
`parse_inp_rows`. -/
def NodeRowMatches (r : NodeRow) (n : INPNode) : Prop :=
  (r.type = "tank" ↔ n.node_type = "Tank") ∧
    (n.node_type ≠ "Tank" → r.type = "node") ∧
    r.id = n.id ∧ r.x = 0 ∧ r.y = 0 ∧ r.elevation = n.elevation

/-- The spec's description of a demand-table row emitted for a
junction-type node: it references that junction and carries its base
demand. Stated from the spec's words, to be compared with
`parse_inp_rows`. -/
def DemandRowMatches (d : DemandRow) (j : INPJunction) : Prop :=
  d.node_id = some j.id ∧ d.demand = j.base_demand

/-! Helper lemmas about the pandas-style list operations. -/

theorem mem_dupAux {x : String} {seen l : List String} :
    x ∈ dupAux seen l ↔ (x ∈ seen ∧ x ∈ l) ∨ 2 ≤ l.count x := by
  induction l generalizing seen with
  | nil => simp [dupAux]
  | cons a t ih =>
    by_cases hxa : x = a
    · subst hxa
      by_cases hs : x ∈ seen
      · rw [dupAux, if_pos hs]
        exact iff_of_true (List.mem_cons_self _ _)
          (Or.inl ⟨hs, List.mem_cons_self _ _⟩)
      · rw [dupAux, if_neg hs, ih]
        have hcc : List.count x (x :: t) = List.count x t + 1 := by
          simp [List.count_cons]
        constructor
        · rintro (⟨_, ht⟩ | hc)
          · have : 0 < List.count x t := List.count_pos_iff.2 ht
            right; omega
          · right; omega
        · rintro (⟨hmem, _⟩ | hc)
          · exact absurd hmem hs
          · rw [hcc] at hc
            have : x ∈ t := List.count_pos_iff.1 (by omega)
            exact Or.inl ⟨List.mem_cons_self _ _, this⟩
    · have hca : List.count x (a :: t) = List.count x t := by
        simp [List.count_cons, Ne.symm hxa]
      by_cases ha : a ∈ seen
      · rw [dupAux, if_pos ha, List.mem_cons, ih, hca]
        simp [hxa]
      · rw [dupAux, if_neg ha, ih, hca]
        simp [List.mem_cons, hxa]

theorem mem_pandasDuplicated {x : String} {l : List String} :
    x ∈ pandasDuplicated l ↔ 2 ≤ l.count x := by
  simp [pandasDuplicated, mem_dupAux]

theorem pandasDuplicated_eq_nil {l : List String} :
    pandasDuplicated l = [] ↔ l.Nodup := by
  rw [List.eq_nil_iff_forall_not_mem, List.nodup_iff_count_le_one]
  constructor
  · intro h a
    have := h a
    rw [mem_pandasDuplicated] at this
    omega
  · intro h a
    rw [mem_pandasDuplicated]
    have := h a
    omega

theorem mem_uniqAux {x : String} {seen l : List String} :
    x ∈ uniqAux seen l ↔ x ∈ l ∧ x ∉ seen := by
  induction l generalizing seen with
  | nil => simp [uniqAux]
  | cons a t ih =>
    by_cases hxa : x = a
    · subst hxa
      by_cases hs : x ∈ seen
      · rw [uniqAux, if_pos hs, ih]
        exact iff_of_false (fun h => h.2 hs) (fun h => h.2 hs)
      · rw [uniqAux, if_neg hs]
        exact iff_of_true (List.mem_cons_self _ _)
          ⟨List.mem_cons_self _ _, hs⟩
    · by_cases ha : a ∈ seen
      · rw [uniqAux, if_pos ha, ih]
        simp [List.mem_cons, hxa]
      · rw [uniqAux, if_neg ha, List.mem_cons, ih]
        simp [List.mem_cons, hxa]

theorem nodup_uniqAux {seen l : List String} : (uniqAux seen l).Nodup := by
  induction l generalizing seen with
  | nil => simp [uniqAux]
  | cons a t ih =>
    by_cases ha : a ∈ seen
    · simpa [uniqAux, if_pos ha] using ih
    · rw [uniqAux, if_neg ha, List.nodup_cons]
      exact ⟨fun hmem => (mem_uniqAux.1 hmem).2 (List.mem_cons_self _ _), ih⟩

theorem mem_pandasUnique {x : String} {l : List String} :
    x ∈ pandasUnique l ↔ x ∈ l := by
  simp [pandasUnique, mem_uniqAux]

theorem nodup_pandasUnique {l : List String} : (pandasUnique l).Nodup :=
  nodup_uniqAux

/-- With no duplicate ids in the node table, the first row matching an id
of a row of the table is that row itself. -/
theorem find?_eq_of_nodup_ids {nodes : List NodeRow} {r : NodeRow}
    (hnd : (nodes.map (·.id)).Nodup) (hr : r ∈ nodes) :
    nodes.find? (fun s => s.id == r.id) = some r := by
  induction nodes with
  | nil => cases hr
  | cons a t ih =>
    rw [List.map_cons, List.nodup_cons] at hnd
    rcases List.mem_cons.1 hr with rfl | hrt
    · simp [List.find?]
    · have hne : (a.id == r.id) = false := by
        have : r.id ∈ t.map (·.id) := List.mem_map.2 ⟨r, hrt, rfl⟩
        simp only [beq_eq_false_iff_ne, ne_eq]
        intro h
        exact hnd.1 (h ▸ this)
      simp only [List.find?, hne]
      exact ih hnd.2 hrt

theorem firstTypeOf_eq_of_nodup {nodes : List NodeRow} {r : NodeRow}
    (hnd : (nodes.map (·.id)).Nodup) (hr : r ∈ nodes) :
    firstTypeOf nodes r.id = r.type := by
  rw [firstTypeOf, find?_eq_of_nodup_ids hnd hr]

theorem mem_connectedIds {n : String} {pipes : List PipeRow} :
    n ∈ connectedIds pipes ↔ ∃ p ∈ pipes, p.from_id = n ∨ p.to_id = n := by
  simp only [connectedIds, List.mem_append, List.mem_map]
  constructor
  · rintro (⟨p, hp, rfl⟩ | ⟨p, hp, rfl⟩)
    · exact ⟨p, hp, Or.inl rfl⟩
    · exact ⟨p, hp, Or.inr rfl⟩
  · rintro ⟨p, hp, rfl | rfl⟩
    · exact Or.inl ⟨p, hp, rfl⟩
    · exact Or.inr ⟨p, hp, rfl⟩

theorem mem_isolatedNodes {n : String} {nodes : List NodeRow} {pipes : List PipeRow} :
    n ∈ isolatedNodes nodes pipes ↔
      n ∈ nodes.map (·.id) ∧ n ∉ connectedIds pipes ∧ firstTypeOf nodes n ≠ "tank" := by
  simp [isolatedNodes, List.mem_filter, and_assoc]

/-- Errors and suggestions are appended in lockstep by the source: the two
lists of `validate_network` always have the same length. -/
theorem validate_network_length_eq (nodes : List NodeRow) (pipes : List PipeRow)
    (demands : List DemandRow) :
    (validate_network nodes pipes demands).1.length =
      (validate_network nodes pipes demands).2.length := by
  have hp : ∀ (ids : List String) (ps : List PipeRow),
      (pipeRefErrors ids ps).length = (pipeRefSuggestions ids ps).length := by
    intro ids ps
    induction ps with
    | nil => rfl
    | cons p t ih =>
      simp only [pipeRefErrors, pipeRefSuggestions, List.flatMap_cons,
        List.length_append] at *
      rw [ih]
      by_cases h1 : p.from_id ∈ ids <;> by_cases h2 : p.to_id ∈ ids <;>
        simp [h1, h2]
  have hd : ∀ (ids ds : List String),
      (demandRefErrors ids ds).length = (demandRefSuggestions ids ds).length := by
    intro ids ds
    induction ds with
    | nil => rfl
    | cons n t ih =>
      simp only [demandRefErrors, demandRefSuggestions, List.flatMap_cons,
        List.length_append] at *
      rw [ih]
      by_cases h : n ∈ ids <;> simp [h]
  simp only [validate_network, dupNodeErrors, dupPipeErrors, isolatedErrors,
    List.length_append]
  rw [hp, hd]
  by_cases h1 : (pandasDuplicated (nodes.map (·.id))).isEmpty <;>
    by_cases h2 : (pandasDuplicated (pipes.map (·.id))).isEmpty <;>
    by_cases h3 : (isolatedNodes nodes pipes).isEmpty <;>
    simp [h1, h2, h3]

/-! Assembly bookkeeping lemmas. -/

theorem filterMap_node_id_filter_isSome (demands : List DemandRow) :
    (demands.filter (fun d => d.node_id.isSome)).filterMap (·.node_id) =
      demands.filterMap (·.node_id) := by
  induction demands with
  | nil => rfl
  | cons d t ih => cases h : d.node_id <;> simp [List.filter_cons, h, ih]

theorem foldl_nodes_net_demands (nodes : List NodeRow) (net : Network) :
    (nodes.foldl
      (fun net r =>
        if r.type == "tank" then net.addTank r.id r.x r.y r.elevation
        else net.addNode r.id r.x r.y r.elevation)
      net).net_demands = net.net_demands := by
  induction nodes generalizing net with
  | nil => rfl
  | cons r t ih =>
    rw [List.foldl_cons, ih]
    by_cases h : r.type == "tank" <;> simp [h, Network.addTank, Network.addNode]

theorem foldl_pipes_net_demands (pipes : List PipeRow) (net : Network) :
    (pipes.foldl
      (fun net p => net.addPipe p.id p.from_id p.to_id p.length p.diameter p.roughness)
      net).net_demands = net.net_demands := by
  induction pipes generalizing net with
  | nil => rfl
  | cons p t ih =>
    rw [List.foldl_cons, ih]
    simp [Network.addPipe]

theorem foldl_demands_net_demands (demands : List DemandRow) (net : Network) :
    (demands.foldl
      (fun net d =>
        match d.node_id with
        | some nid => net.addDemand nid d.demand "BASE"
        | none => net)
      net).net_demands =
      net.net_demands ++
        demands.filterMap (fun d => d.node_id.map (fun nid => (nid, d.demand, "BASE"))) := by
  induction demands generalizing net with
  | nil => simp
  | cons d t ih =>
    rw [List.foldl_cons, ih]
    cases h : d.node_id <;> simp [h, Network.addDemand]

/-! Helper lemmas telling the error-message families apart: the
duplicate-node-ids marker heads no string of any other check block. -/

theorem not_prefix_append_of_take_ne (p a s : List Char)
    (hlen : a.length ≤ p.length) (hne : p.take a.length ≠ a) :
    ¬ p <+: a ++ s := by
  intro hp
  apply hne
  obtain ⟨t, ht⟩ := hp
  have h1 : p.take a.length = (p ++ t).take a.length :=
    (List.take_append_of_le_length hlen).symm
  rw [h1, ht]
  exact List.take_left a s

theorem not_prefix_append_of_not_prefix_head (p a s : List Char)
    (hlen : p.length ≤ a.length) (hna : ¬ p <+: a) : ¬ p <+: a ++ s := by
  intro hp
  apply hna
  obtain ⟨t, ht⟩ := hp
  have h1 : p = (a ++ s).take p.length := by
    calc p = (p ++ t).take p.length := by
          rw [List.take_append_of_le_length (Nat.le_refl _), List.take_length]
      _ = (a ++ s).take p.length := by rw [ht]
  rw [h1, List.take_append_of_le_length hlen]
  exact List.take_prefix p.length a

theorem marker_countP_dupPipeErrors (pipes : List PipeRow) :
    (dupPipeErrors pipes).countP
      (fun e => "Duplicate node IDs: ".data.isPrefixOf e.data) = 0 := by
  apply List.countP_eq_zero.2
  intro e he
  simp only [dupPipeErrors] at he
  rcases he' : (pandasDuplicated (pipes.map (·.id))).isEmpty with _ | _ <;>
    rw [he'] at he
  · rcases List.mem_singleton.1 (by simpa using he) with rfl
    simp only [List.isPrefixOf_iff_prefix, String.data_append]
    exact not_prefix_append_of_not_prefix_head _ _ _ (by decide) (by decide)
  · simp at he

theorem marker_countP_pipeRefErrors (ids : List String) (pipes : List PipeRow) :
    (pipeRefErrors ids pipes).countP
      (fun e => "Duplicate node IDs: ".data.isPrefixOf e.data) = 0 := by
  apply List.countP_eq_zero.2
  intro e he
  simp only [pipeRefErrors, List.mem_flatMap] at he
  obtain ⟨p, _, hp⟩ := he
  have hshape : e = "Pipe " ++ p.id ++ " connects from unknown node '" ++ p.from_id ++ "'" ∨
      e = "Pipe " ++ p.id ++ " connects to unknown node '" ++ p.to_id ++ "'" := by
    rcases List.mem_append.1 hp with h | h <;>
      [skip; skip] <;>
      first
      | (left; split at h <;> simpa using h)
      | (right; split at h <;> simpa using h)
  simp only [List.isPrefixOf_iff_prefix]
  rcases hshape with rfl | rfl <;>
    · simp only [String.data_append, List.append_assoc]
      exact not_prefix_append_of_take_ne _ _ _ (by decide) (by decide)

theorem marker_countP_demandRefErrors (ids demand_ids : List String) :
    (demandRefErrors ids demand_ids).countP
      (fun e => "Duplicate node IDs: ".data.isPrefixOf e.data) = 0 := by
  apply List.countP_eq_zero.2
  intro e he
  simp only [demandRefErrors, List.mem_flatMap] at he
  obtain ⟨n, _, hn⟩ := he
  have hshape : e = "Demand specified at non-existent node '" ++ n ++ "'" := by
    split at hn <;> simpa using hn
  subst hshape
  simp only [List.isPrefixOf_iff_prefix, String.data_append, List.append_assoc]
  exact not_prefix_append_of_not_prefix_head _ _ _ (by decide) (by decide)

theorem marker_countP_isolatedErrors (nodes : List NodeRow) (pipes : List PipeRow) :
    (isolatedErrors nodes pipes).countP
      (fun e => "Duplicate node IDs: ".data.isPrefixOf e.data) = 0 := by
  apply List.countP_eq_zero.2
  intro e he
  simp only [isolatedErrors] at he
  split at he
  · simp at he
  · rcases List.mem_singleton.1 he with rfl
    simp only [List.isPrefixOf_iff_prefix, String.data_append, List.append_assoc]
    exact not_prefix_append_of_not_prefix_head _ _ _ (by decide) (by decide)

/-- The error list of `validate_network` is the concatenation of its
five check blocks, in source order. -/
theorem validate_network_errors_eq (nodes : List NodeRow) (pipes : List PipeRow)
    (demands : List DemandRow) :
    (validate_network nodes pipes demands).1 =
      dupNodeErrors nodes ++ dupPipeErrors pipes ++
        pipeRefErrors (nodes.map (·.id)) pipes ++
        demandRefErrors (nodes.map (·.id)) (demands.filterMap (·.node_id)) ++
        isolatedErrors nodes pipes :=
  rfl

/-! The claims. -/

/-- C1. For record collections with no duplicate node or pipe ids, no
dangling pipe or demand references, and every non-tank node touched by at
least one pipe as an endpoint, `validate_network` returns an empty error
list. -/
theorem validate_network_wellformed_no_errors
    (nodes : List NodeRow) (pipes : List PipeRow) (demands : List DemandRow)
    (hnd : (nodes.map (·.id)).Nodup)
    (hpd : (pipes.map (·.id)).Nodup)
    (href : ∀ p ∈ pipes, p.from_id ∈ nodes.map (·.id) ∧ p.to_id ∈ nodes.map (·.id))
    (hdem : ∀ d ∈ demands, ∀ n ∈ d.node_id.toList, n ∈ nodes.map (·.id))
    (hconn : ∀ r ∈ nodes, r.type ≠ "tank" → r.id ∈ connectedIds pipes) :
    (validate_network nodes pipes demands).1 = [] := by
  have h1 : pandasDuplicated (nodes.map (·.id)) = [] := pandasDuplicated_eq_nil.2 hnd
  have h2 : pandasDuplicated (pipes.map (·.id)) = [] := pandasDuplicated_eq_nil.2 hpd
  have h3 : pipeRefErrors (nodes.map (·.id)) pipes = [] := by
    rw [pipeRefErrors, List.flatMap_eq_nil_iff]
    intro p hp
    simp [(href p hp).1, (href p hp).2]
  have h4 : demandRefErrors (nodes.map (·.id)) (demands.filterMap (·.node_id)) = [] := by
    rw [demandRefErrors, List.flatMap_eq_nil_iff]
    intro n hn
    obtain ⟨d, hd, hdn⟩ := List.mem_filterMap.1 hn
    have : n ∈ nodes.map (·.id) := hdem d hd n (by simp [hdn])
    simp [this]
  have h5 : isolatedNodes nodes pipes = [] := by
    rw [isolatedNodes, List.filter_eq_nil_iff]
    intro n hn
    obtain ⟨r, hr, rfl⟩ := List.mem_map.1 hn
    rw [firstTypeOf_eq_of_nodup hnd hr]
    simp only [decide_eq_true_eq, not_and, not_not]
    intro hnc
    by_contra hnt
    exact hnc (hconn r hr hnt)
  simp [validate_network, dupNodeErrors, dupPipeErrors, isolatedErrors,
    h1, h2, h3, h4, h5]

/-- Witness for C1: a concrete three-node network (two junction-kind
nodes joined by a pipe, plus an unconnected tank) with one attached
demand and one missing-reference demand validates with no errors. -/
theorem validate_network_wellformed_no_errors_witness :
    (validate_network
      [⟨"node", "A", 0, 0, 10⟩, ⟨"node", "B", 0, 0, 5⟩, ⟨"tank", "T", 0, 0, 1⟩]
      [⟨"P1", "A", "B", 100, 200, 100⟩]
      [⟨some "B", 1/100⟩, ⟨none, 2⟩]).1 = [] :=
  validate_network_wellformed_no_errors _ _ _
    (by decide) (by decide) (by decide) (by decide) (by decide)

/-- C2. Demand rows whose node reference is missing are silently skipped:
removing them does not change the validation report at all (in
particular they produce no error), and the assembled model's demand set
holds exactly the demands of the rows with a present node reference. -/
theorem demand_rows_without_node_ref_skipped
    (nodes : List NodeRow) (pipes : List PipeRow) (demands : List DemandRow) :
    validate_network nodes pipes (demands.filter (fun d => d.node_id.isSome)) =
        validate_network nodes pipes demands ∧
      (create_network nodes pipes demands).net_demands =
        demands.filterMap (fun d => d.node_id.map (fun nid => (nid, d.demand, "BASE"))) := by
  constructor
  · simp [validate_network, filterMap_node_id_filter_isSome]
  · simp only [create_network]
    rw [foldl_demands_net_demands, foldl_pipes_net_demands, foldl_nodes_net_demands]
    simp [Network.empty]

/-- C6. An empty error list (the validity signal) coincides with an
empty suggestion list: suggestions can be non-empty only when errors
are. -/
theorem validate_network_empty_errors_iff_empty_suggestions
    (nodes : List NodeRow) (pipes : List PipeRow) (demands : List DemandRow) :
    (validate_network nodes pipes demands).1 = [] ↔
      (validate_network nodes pipes demands).2 = [] := by
  rw [← List.length_eq_zero, ← List.length_eq_zero,
    validate_network_length_eq nodes pipes demands]

/-- C10. `validate_network` appends errors and suggestions in lockstep:
the two returned lists always have the same length. -/
theorem validate_network_parallel_lists
    (nodes : List NodeRow) (pipes : List PipeRow) (demands : List DemandRow) :
    (validate_network nodes pipes demands).1.length =
      (validate_network nodes pipes demands).2.length :=
  validate_network_length_eq nodes pipes demands

/-- C7 counterexample: on the normal exit path of `parse_inp_file` the
temporary file is never deleted — the claimed cleanup-on-all-exit-paths
fails already on successful completion. -/
theorem parse_inp_tempfile_cleanup_counterexample :
    FileEvent.delete ∉ parse_inp_file_trace ParseOutcome.ok := by
  decide

/-- C7 amended: `parse_inp_file` creates its temporary file with
`delete=False` and holds no removal call, so on every exit path
(success, a failing parse, a failing write) the file is closed but never
deleted: its lifetime is NOT bounded to the operation. -/
theorem parse_inp_tempfile_never_deleted :
    ∀ o : ParseOutcome, FileEvent.delete ∉ parse_inp_file_trace o ∧
      FileEvent.close ∈ parse_inp_file_trace o := by
  intro o
  cases o <;> exact ⟨by decide, by decide⟩

/-- C3 counterexample: with two node rows sharing id `N1`, a tank row
first and a `node`-kind row second, and no pipes, the `node`-kind row is
untouched by any pipe yet `N1` is not reported isolated — the isolation
check reads the kind of the FIRST row carrying the id, so the claim
fails as stated for inputs with duplicate identifiers. -/
theorem isolated_check_first_match_counterexample :
    ((⟨"node", "N1", 0, 0, 0⟩ : NodeRow) ∈
        ([⟨"tank", "N1", 0, 0, 0⟩, ⟨"node", "N1", 0, 0, 0⟩] : List NodeRow)) ∧
      "N1" ∉ connectedIds ([] : List PipeRow) ∧
      isolatedNodes [⟨"tank", "N1", 0, 0, 0⟩, ⟨"node", "N1", 0, 0, 0⟩] [] = [] ∧
      (validate_network [⟨"tank", "N1", 0, 0, 0⟩, ⟨"node", "N1", 0, 0, 0⟩] [] []).1 =
        ["Duplicate node IDs: N1"] := by
  decide

/-- C3 amended: when node identifiers are not duplicated, a node row of
kind other than `tank` whose id is no pipe endpoint lands in the
isolated list and the isolated-nodes error is reported, while a `tank`
row in the same position is never in the isolated list. -/
theorem isolated_nodes_reported_amended
    (nodes : List NodeRow) (pipes : List PipeRow) (demands : List DemandRow)
    (hnd : (nodes.map (·.id)).Nodup)
    (r : NodeRow) (hr : r ∈ nodes) (hnc : r.id ∉ connectedIds pipes) :
    (r.type ≠ "tank" →
      r.id ∈ isolatedNodes nodes pipes ∧
        ("Isolated nodes with no connected pipes: " ++
            String.intercalate ", " (isolatedNodes nodes pipes)) ∈
          (validate_network nodes pipes demands).1) ∧
    (r.type = "tank" → r.id ∉ isolatedNodes nodes pipes) := by
  have hft : firstTypeOf nodes r.id = r.type := firstTypeOf_eq_of_nodup hnd hr
  have hmem : r.id ∈ nodes.map (·.id) := List.mem_map.2 ⟨r, hr, rfl⟩
  constructor
  · intro ht
    have hiso : r.id ∈ isolatedNodes nodes pipes :=
      mem_isolatedNodes.2 ⟨hmem, hnc, by rw [hft]; exact ht⟩
    refine ⟨hiso, ?_⟩
    have hne : isolatedNodes nodes pipes ≠ [] := by
      intro h
      rw [h] at hiso
      cases hiso
    have herr : isolatedErrors nodes pipes =
        ["Isolated nodes with no connected pipes: " ++
          String.intercalate ", " (isolatedNodes nodes pipes)] := by
      rw [isolatedErrors, if_neg (by simpa [List.isEmpty_iff] using hne)]
    rw [validate_network_errors_eq, herr]
    simp [List.mem_append]
  · intro ht hmem'
    exact (mem_isolatedNodes.1 hmem').2.2 (by rw [hft]; exact ht)

/-- Witness for the amended C3: in a two-node table (a junction-kind `A`
and a tank `T`) with no pipes, `A` is reported isolated and `T` is not. -/
theorem isolated_nodes_reported_amended_witness :
    ("A" ∈ isolatedNodes [⟨"node", "A", 0, 0, 10⟩, ⟨"tank", "T", 0, 0, 1⟩] [] ∧
      ("Isolated nodes with no connected pipes: " ++
          String.intercalate ", "
            (isolatedNodes [⟨"node", "A", 0, 0, 10⟩, ⟨"tank", "T", 0, 0, 1⟩] [])) ∈
        (validate_network [⟨"node", "A", 0, 0, 10⟩, ⟨"tank", "T", 0, 0, 1⟩] [] []).1) ∧
    "T" ∉ isolatedNodes [⟨"node", "A", 0, 0, 10⟩, ⟨"tank", "T", 0, 0, 1⟩] [] :=
  ⟨(isolated_nodes_reported_amended
      [⟨"node", "A", 0, 0, 10⟩, ⟨"tank", "T", 0, 0, 1⟩] [] []
      (by decide) ⟨"node", "A", 0, 0, 10⟩ (by decide) (by decide)).1 (by decide),
   (isolated_nodes_reported_amended
      [⟨"node", "A", 0, 0, 10⟩, ⟨"tank", "T", 0, 0, 1⟩] [] []
      (by decide) ⟨"tank", "T", 0, 0, 1⟩ (by decide) (by decide)).2 (by decide)⟩

/-- C4. Each pipe endpoint absent from the node identifier set yields
its own error in `validate_network`'s output, naming the pipe id and the
missing node id — for every input, so also alongside duplicate-id or any
other errors. -/
theorem pipe_unknown_endpoint_errors
    (nodes : List NodeRow) (pipes : List PipeRow) (demands : List DemandRow)
    (p : PipeRow) (hp : p ∈ pipes) :
    (p.from_id ∉ nodes.map (·.id) →
      ("Pipe " ++ p.id ++ " connects from unknown node '" ++ p.from_id ++ "'") ∈
        (validate_network nodes pipes demands).1) ∧
    (p.to_id ∉ nodes.map (·.id) →
      ("Pipe " ++ p.id ++ " connects to unknown node '" ++ p.to_id ++ "'") ∈
        (validate_network nodes pipes demands).1) := by
  constructor
  · intro h
    have hm : ("Pipe " ++ p.id ++ " connects from unknown node '" ++ p.from_id ++ "'") ∈
        pipeRefErrors (nodes.map (·.id)) pipes :=
      List.mem_flatMap.2 ⟨p, hp, by simp [h]⟩
    rw [validate_network_errors_eq]
    simp [List.mem_append, hm]
  · intro h
    have hm : ("Pipe " ++ p.id ++ " connects to unknown node '" ++ p.to_id ++ "'") ∈
        pipeRefErrors (nodes.map (·.id)) pipes :=
      List.mem_flatMap.2 ⟨p, hp, by simp [h]⟩
    rw [validate_network_errors_eq]
    simp [List.mem_append, hm]

/-- Witness for C4: a pipe `P1` whose `to` endpoint `N99` is unknown is
reported with an error naming both, in an input that also carries a
duplicate node id error. -/
theorem pipe_unknown_endpoint_errors_witness :
    ("Pipe " ++ "P1" ++ " connects to unknown node '" ++ "N99" ++ "'") ∈
      (validate_network [⟨"node", "A", 0, 0, 1⟩, ⟨"node", "A", 0, 0, 2⟩]
        [⟨"P1", "A", "N99", 1, 1, 1⟩] []).1 ∧
    "Duplicate node IDs: A" ∈
      (validate_network [⟨"node", "A", 0, 0, 1⟩, ⟨"node", "A", 0, 0, 2⟩]
        [⟨"P1", "A", "N99", 1, 1, 1⟩] []).1 :=
  ⟨(pipe_unknown_endpoint_errors [⟨"node", "A", 0, 0, 1⟩, ⟨"node", "A", 0, 0, 2⟩]
      [⟨"P1", "A", "N99", 1, 1, 1⟩] [] ⟨"P1", "A", "N99", 1, 1, 1⟩ (by decide)).2
      (by decide),
   by decide⟩

/-- C5. When the node table holds some identifier more than once,
`validate_network` emits exactly one error headed by the
duplicate-node-ids marker; the identifier list it joins holds each
duplicated value exactly once (no repetitions, and membership is
precisely "occurs at least twice in the id column"); and this is so for
every input, whatever other errors are present. -/
theorem validate_duplicate_node_ids_error
    (nodes : List NodeRow) (pipes : List PipeRow) (demands : List DemandRow)
    (hdup : ∃ x, 2 ≤ (nodes.map (·.id)).count x) :
    ((validate_network nodes pipes demands).1.countP
        (fun e => "Duplicate node IDs: ".data.isPrefixOf e.data) = 1) ∧
    ("Duplicate node IDs: " ++
        String.intercalate ", " (pandasUnique (pandasDuplicated (nodes.map (·.id))))) ∈
      (validate_network nodes pipes demands).1 ∧
    (pandasUnique (pandasDuplicated (nodes.map (·.id)))).Nodup ∧
    (∀ x, x ∈ pandasUnique (pandasDuplicated (nodes.map (·.id))) ↔
      2 ≤ (nodes.map (·.id)).count x) := by
  obtain ⟨x0, hx0⟩ := hdup
  have hne : pandasDuplicated (nodes.map (·.id)) ≠ [] := by
    intro h
    have := List.nodup_iff_count_le_one.1 (pandasDuplicated_eq_nil.1 h) x0
    omega
  have hblock : dupNodeErrors nodes =
      ["Duplicate node IDs: " ++
        String.intercalate ", " (pandasUnique (pandasDuplicated (nodes.map (·.id))))] := by
    simp only [dupNodeErrors]
    rw [if_neg (by simpa [List.isEmpty_iff] using hne)]
  refine ⟨?_, ?_, nodup_pandasUnique, ?_⟩
  · rw [validate_network_errors_eq]
    simp only [List.countP_append, hblock, marker_countP_dupPipeErrors,
      marker_countP_pipeRefErrors, marker_countP_demandRefErrors,
      marker_countP_isolatedErrors, List.countP_cons, List.countP_nil]
    have : ("Duplicate node IDs: ".data.isPrefixOf
        ("Duplicate node IDs: " ++
          String.intercalate ", "
            (pandasUnique (pandasDuplicated (nodes.map (·.id))))).data) = true := by
      rw [List.isPrefixOf_iff_prefix, String.data_append]
      exact List.prefix_append _ _
    simp [this]
  · rw [validate_network_errors_eq, hblock]
    simp [List.mem_append]
  · intro x
    rw [mem_pandasUnique, mem_pandasDuplicated]

/-- Witness for C5: two `N1` rows (plus an isolated-node error present
alongside) yield exactly one duplicate-node error, whose joined
identifier list is duplicate-free. -/
theorem validate_duplicate_node_ids_error_witness :
    ((validate_network [⟨"node", "N1", 0, 0, 0⟩, ⟨"node", "N1", 0, 0, 0⟩] [] []).1.countP
        (fun e => "Duplicate node IDs: ".data.isPrefixOf e.data) = 1) ∧
    ("Duplicate node IDs: " ++
        String.intercalate ", "
          (pandasUnique (pandasDuplicated
            (([⟨"node", "N1", 0, 0, 0⟩, ⟨"node", "N1", 0, 0, 0⟩] : List NodeRow).map (·.id))))) ∈
      (validate_network [⟨"node", "N1", 0, 0, 0⟩, ⟨"node", "N1", 0, 0, 0⟩] [] []).1 ∧
    (pandasUnique (pandasDuplicated
      (([⟨"node", "N1", 0, 0, 0⟩, ⟨"node", "N1", 0, 0, 0⟩] : List NodeRow).map (·.id)))).Nodup :=
  have h := validate_duplicate_node_ids_error
    [⟨"node", "N1", 0, 0, 0⟩, ⟨"node", "N1", 0, 0, 0⟩] [] [] ⟨"N1", by decide⟩
  ⟨h.1, h.2.1, h.2.2.1⟩

/-- C8. For every parsed network: the node table pairs one row per
parsed node, classified `tank` exactly when the declared type is `Tank`
(`node` otherwise) with coordinates at the origin; the pipe table holds
exactly the `Pipe`-typed links with their endpoints and attributes; the
demand table pairs one row per junction carrying its base demand. -/
theorem parse_inp_rows_classification (net : INPNetwork) :
    ((parse_inp_rows net).1.length = net.nodes.length ∧
      ∀ pr ∈ (parse_inp_rows net).1.zip net.nodes, NodeRowMatches pr.1 pr.2) ∧
    (∀ p : PipeRow, p ∈ (parse_inp_rows net).2.1 ↔
      ∃ l ∈ net.links, l.link_type = "Pipe" ∧
        p = ⟨l.id, l.start_node, l.end_node, l.length, l.diameter, l.roughness⟩) ∧
    ((parse_inp_rows net).2.2.length = net.junctions.length ∧
      ∀ dr ∈ (parse_inp_rows net).2.2.zip net.junctions, DemandRowMatches dr.1 dr.2) := by
  refine ⟨⟨by simp [parse_inp_rows], ?_⟩, ?_, ⟨by simp [parse_inp_rows], ?_⟩⟩
  · show ∀ pr ∈ ((net.nodes.map _).zip net.nodes), NodeRowMatches pr.1 pr.2
    induction net.nodes with
    | nil => intro pr hpr; cases hpr
    | cons a t ih =>
      intro pr hpr
      rw [List.map_cons, List.zip_cons_cons] at hpr
      rcases List.mem_cons.1 hpr with rfl | hpr'
      · by_cases h : a.node_type = "Tank" <;>
          simp [NodeRowMatches, h]
      · exact ih pr hpr'
  · intro p
    simp only [parse_inp_rows, List.mem_map, List.mem_filter, beq_iff_eq]
    constructor
    · rintro ⟨l, ⟨hl, htype⟩, rfl⟩
      exact ⟨l, hl, htype, rfl⟩
    · rintro ⟨l, hl, htype, rfl⟩
      exact ⟨l, ⟨hl, htype⟩, rfl⟩
  · show ∀ dr ∈ ((net.junctions.map _).zip net.junctions), DemandRowMatches dr.1 dr.2
    induction net.junctions with
    | nil => intro dr hdr; cases hdr
    | cons a t ih =>
      intro dr hdr
      rw [List.map_cons, List.zip_cons_cons] at hdr
      rcases List.mem_cons.1 hdr with rfl | hdr'
      · exact ⟨rfl, rfl⟩
      · exact ih dr hdr'

/-- Witness for C8 on a concrete parsed network with a junction, a tank,
a pipe and a non-pipe link: the tank row is classified `tank` at the
origin, the pipe row is kept (the valve is not), and the junction's base
demand becomes a demand row. -/
theorem parse_inp_rows_classification_witness :
    NodeRowMatches ⟨"tank", "T1", 0, 0, 2⟩ ⟨"T1", "Tank", 2⟩ ∧
    ((⟨"P1", "J1", "T1", 100, 200, 100⟩ : PipeRow) ∈
      (parse_inp_rows ⟨[⟨"J1", "Junction", 10⟩, ⟨"T1", "Tank", 2⟩],
        [⟨"P1", "Pipe", "J1", "T1", 100, 200, 100⟩, ⟨"V1", "Valve", "J1", "T1", 1, 1, 1⟩],
        [⟨"J1", 5⟩]⟩).2.1) ∧
    DemandRowMatches ⟨some "J1", 5⟩ ⟨"J1", 5⟩ :=
  have h := parse_inp_rows_classification
    ⟨[⟨"J1", "Junction", 10⟩, ⟨"T1", "Tank", 2⟩],
     [⟨"P1", "Pipe", "J1", "T1", 100, 200, 100⟩, ⟨"V1", "Valve", "J1", "T1", 1, 1, 1⟩],
     [⟨"J1", 5⟩]⟩
  ⟨h.1.2 (⟨"tank", "T1", 0, 0, 2⟩, ⟨"T1", "Tank", 2⟩) (by decide),
   (h.2.1 ⟨"P1", "J1", "T1", 100, 200, 100⟩).2
     ⟨⟨"P1", "Pipe", "J1", "T1", 100, 200, 100⟩, by decide, rfl, rfl⟩,
   h.2.2.2 (⟨some "J1", 5⟩, ⟨"J1", 5⟩) (by decide)⟩

end EpaPiStream
